import Mathlib

/-!
Verification of the raw-socket HTTP transport layer
(`engine/transport_layer/messaging.py`): message framing, the process-wide
send throttle, incremental response reassembly and the reconnect/retry
policy of `HttpRawSock.sendRecv`.

Python strings are embedded as lists of characters (code points); machine
side effects (socket reads/writes, connection setup) are embedded as
explicit event traces supplied by an environment value, and exceptions as
an `Except` result.
-/

set_option autoImplicit false

/-- Python `str`, modelled as the list of its characters (code points). -/
abbrev PyStr := List Char

/-- Coerce a Lean string literal to a `PyStr`. -/
def pystr (s : String) : PyStr := s.toList

/-- The header/body delimiter (`DELIM = "\r\n\r\n"` in the source). -/
def DELIM : PyStr := pystr "\r\n\r\n"

/-- Python `needle == hay[:len(needle)]`: does `hay` start with `needle`? -/
def pyStartsWith : PyStr → PyStr → Bool
  | [], _ => true
  | _ :: _, [] => false
  | a :: as, b :: bs => a = b && pyStartsWith as bs

/-- Python `needle in hay` for strings: substring containment. -/
def pyIn (needle : PyStr) : PyStr → Bool
  | [] => pyStartsWith needle []
  | c :: rest => pyStartsWith needle (c :: rest) || pyIn needle rest

/-- Python `hay.find(needle)` / `hay.index(needle)`: index of the first
occurrence, `none` when absent. -/
def pyFind (needle : PyStr) : PyStr → Option Nat
  | [] => if pyStartsWith needle [] then some 0 else none
  | c :: rest =>
    if pyStartsWith needle (c :: rest) then some 0
    else (pyFind needle rest).map (· + 1)

/-- Python `s.endswith(suffix)`. -/
def pyEndsWith (suffix s : PyStr) : Bool :=
  pyStartsWith suffix.reverse s.reverse

/-- Python `s.lower()` (ASCII range, which is all the source compares). -/
def pyLower (s : PyStr) : PyStr := s.map Char.toLower

/-- Python `s.upper()` (ASCII range, which is all the source compares). -/
def pyUpper (s : PyStr) : PyStr := s.map Char.toUpper

/-- Python `s.split(pat)[0]`: the text before the first occurrence of
`pat` (all of `s` when `pat` is absent). -/
def takeUntil (pat : PyStr) (s : PyStr) : PyStr :=
  match pyFind pat s with
  | none => s
  | some i => s.take i

/-- Python `s.strip('"\'')`: remove leading and trailing quote characters. -/
def stripQuotes (s : PyStr) : PyStr :=
  let isQ : Char → Bool := fun c => c = '"' || c = '\''
  ((s.dropWhile isQ).reverse.dropWhile isQ).reverse

/-- Whitespace characters accepted by Python `int(...)` around the digits. -/
def isPyWs (c : Char) : Bool :=
  c = ' ' || c = '\t' || c = '\n' || c = '\r' || c = '\x0b' || c = '\x0c'

/-- Python `s.strip()` for the whitespace class above. -/
def pyStrip (s : PyStr) : PyStr :=
  ((s.dropWhile isPyWs).reverse.dropWhile isPyWs).reverse

/-- Value of a non-empty all-digit string, `none` otherwise. -/
def digitsVal (s : PyStr) : Option Nat :=
  if s ≠ [] ∧ s.all Char.isDigit then
    some (s.foldl (fun a c => a * 10 + (c.toNat - 48)) 0)
  else none

/-- Python `int(s)`: optional surrounding whitespace, optional sign,
decimal digits; `none` models `ValueError`. -/
def parsePyInt (s : PyStr) : Option Int :=
  match pyStrip s with
  | '-' :: rest => (digitsVal rest).map (fun n => -(n : Int))
  | '+' :: rest => (digitsVal rest).map (fun n => (n : Int))
  | t => (digitsVal t).map (fun n => (n : Int))

/-- Number of bytes of the UTF-8 encoding of a `PyStr` (what
`message.encode('utf-8')` produces on the wire). -/
def pyBytesLen (s : PyStr) : Nat := (String.mk s).utf8ByteSize

example : pyIn (pystr "ab") (pystr "xabz") = true := by decide
example : pyFind (pystr "\r\n") (pystr "a\r\nb") = some 1 := by decide
example : pyEndsWith DELIM (pystr "x\r\n\r\n") = true := by decide
example : parsePyInt (pystr " 42\n") = some 42 := by decide
example : parsePyInt (pystr "-7") = some (-7) := by decide
example : parsePyInt (pystr "4a") = none := by decide
example : pyBytesLen (pystr "é") = 2 := by decide
example : stripQuotes (pystr "\"'ab'\"") = pystr "ab" := by decide

/-! ## Exceptions, responses and the Python attribute model -/

/-- Exceptions that can flow out of the transport layer.  `transport` is
`TransportLayerException` (the only class caught by `sendRecv`);
`connectionSetup` is the fatal connection-setup failure; `decodeFailure`
is a `UnicodeDecodeError` re-raised by `decode_buf`; `attrError` is a
Python `AttributeError` carrying the missing attribute name; `valueError`
is the `ValueError` of `str.index` on a message with no delimiter. -/
inductive Exn where
  | transport (msg : PyStr)
  | connectionSetup (msg : PyStr)
  | decodeFailure
  | attrError (missing : String)
  | valueError
  deriving DecidableEq, Repr

/-- Modelled from the spec: the synthetic TIMEOUT sentinel status code
(`TIMEOUT_CODE` is imported from `engine.transport_layer.response`, which
is not part of the sources; the spec only requires a synthetic value
distinct from wire statuses). -/
def TIMEOUT_CODE : PyStr := pystr "TIMEOUT"

/-- Modelled from the spec: the synthetic CONNECTION_CLOSED sentinel
status code (imported from `engine.transport_layer.response`, not in the
sources). -/
def CONNECTION_CLOSED_CODE : PyStr := pystr "CONNECTION_CLOSED"

/-- Modelled from the spec: a `Response` exposes at least a status code —
either parsed from the text it was built from or a synthetic sentinel —
and the raw response text (`HttpResponse` lives in
`engine.transport_layer.response`, which is not part of the sources). -/
structure HttpResponse where
  text : PyStr
  statusCode : PyStr
  deriving DecidableEq, Repr

/-- Modelled from the spec: status-code extraction from raw response text
(the token of up to three characters after the first space; detailed
response parsing is out of the spec's scope). -/
def parseStatusFromText (s : PyStr) : PyStr :=
  match pyFind (pystr " ") s with
  | none => []
  | some i => (s.drop (i + 1)).take 3

/-- Modelled from the spec: `HttpResponse(s)` builds a response from raw
text, with the status code parsed from that text. -/
def mkHttpResponse (s : PyStr) : HttpResponse :=
  { text := s, statusCode := parseStatusFromText s }

/-- Python private name mangling: inside the body of class `cls`, an
identifier with two leading underscores and at most one trailing
underscore is rewritten to `_cls` followed by the identifier. -/
def pyMangle (cls id : String) : String :=
  if pyStartsWith (pystr "__") (pystr id) && !(pyEndsWith (pystr "__") (pystr id)) then
    "_" ++ cls ++ id
  else id

/-- The attributes of class `HttpSock` (its class body defines exactly
`__init__` and `sendRecv`; `object` contributes no `_HttpRawSock…` name). -/
def httpSockClassAttrs : List String := ["__init__", "sendRecv"]

/-- Attribute lookup on the `HttpSock` class object. -/
def lookupHttpSockAttr (name : String) : Option String :=
  if httpSockClassAttrs.contains name then some name else none

/-! ## Configuration, environment and session state -/

/-- The settings consulted by `HttpRawSock` on the send/receive path.
`throttleMs` is `Settings().request_throttle_ms` (`none` for unset or
zero, mirroring Python truthiness in `__init__`). -/
structure Config where
  throttleMs : Option Nat
  includeUserAgent : Bool
  version : PyStr
  ignoreDecodingFailures : Bool
  useTestSocket : Bool
  deriving DecidableEq, Repr

/-- One `self._sock.recv(2**20)` outcome: either a buffer of `byteLen`
bytes whose decoded text is `text` (`decodeOk` records whether UTF-8
decoding succeeds), or a raised socket exception with message `msg`.
A `byteLen` of zero is the peer closing the connection. -/
inductive RecvEvent where
  | data (byteLen : Nat) (text : PyStr) (decodeOk : Bool)
  | fail (msg : PyStr)
  deriving DecidableEq, Repr

/-- The environment of one attempt (one pass through the body of
`sendRecv`): the outcome of connection setup (`none` = success), of
`sendall` (`none` = success), the sequence of socket-read outcomes, and
the response delivered by the test socket when one is configured. -/
structure AttemptEnv where
  connectErr : Option PyStr
  sendErr : Option PyStr
  recvs : List RecvEvent
  testResp : HttpResponse
  deriving DecidableEq, Repr

/-- The environment of one external `sendRecv` call: the first attempt's
world and the world of the single possible reconnect-and-retry. -/
structure Env where
  a1 : AttemptEnv
  a2 : AttemptEnv
  deriving DecidableEq, Repr

/-- Session state: `connected` is `self._connected`, `sockOpen` records
whether `self._sock` currently holds a socket object. -/
structure SockState where
  connected : Bool
  sockOpen : Bool
  deriving DecidableEq, Repr

/-- The state set up by `HttpRawSock.__init__` (the second, overriding
definition): no connection is opened at construction time. -/
def initState : SockState := { connected := false, sockOpen := false }

/-- Observable connection/send events, used to state ordering claims. -/
inductive Ev where
  | closeSock
  | connect
  | sendBytes (framed : PyStr)
  deriving DecidableEq, Repr

/-! ## Message framing (`HttpRawSock._sendRequest`, lines 306-330) -/

/-- `_append_to_header(message, content)`: splice `"\r\n" + content` in
front of the first delimiter.  The `ValueError` of `message.index(DELIM)`
on a delimiter-free message is returned as `Exn.valueError`. -/
def appendToHeader (msg content : PyStr) : Except Exn PyStr :=
  match pyFind DELIM msg with
  | none => .error .valueError
  | some i =>
    .ok (msg.take i ++ pystr "\r\n" ++ content ++ DELIM ++ msg.drop (i + DELIM.length))

/-- The Content-Length injection step of `_sendRequest`: when the literal
text `"Content-Length: "` occurs nowhere in the message, append a
`Content-Length` header whose value is `len(message[start_of_body:])`,
the number of characters after the first delimiter. -/
def addContentLength (msg : PyStr) : Except Exn PyStr :=
  if pyIn (pystr "Content-Length: ") msg then .ok msg
  else
    match pyFind DELIM msg with
    | none => .error .valueError
    | some i =>
      let contentlen := (msg.drop (i + DELIM.length)).length
      appendToHeader msg (pystr "Content-Length: " ++ (toString contentlen).toList)

/-- The full framing in `_sendRequest`: Content-Length injection followed
by the optional `User-Agent` header. -/
def frameMessage (cfg : Config) (msg : PyStr) : Except Exn PyStr := do
  let m ← addContentLength msg
  if cfg.includeUserAgent then
    appendToHeader m (pystr "User-Agent: restler/" ++ cfg.version)
  else
    .ok m

/-- `_get_method_from_message`: the text before the first space; when no
space exists, `find` returns `-1` and the slice `[0:-1]` drops the last
character. -/
def getMethodFromMessage (msg : PyStr) : PyStr :=
  match pyFind (pystr " ") msg with
  | some i => msg.take i
  | none => msg.take (msg.length - 1)

/-! ## Throttle (`_begin_throttle_request` / `_end_throttle_request`)

Inside the body of class `HttpRawSock`, the expression
`HttpSock.__request_sem` compiles (by Python private name mangling) to a
lookup of `_HttpRawSock__request_sem` on the class object `HttpSock`.
`HttpSock` has no such attribute — the semaphore created on line 151
lives on `HttpRawSock` under that name — so when a throttle interval is
configured the lookup raises `AttributeError` before anything is
acquired or slept.  The success branch (acquire, sleep, and on the way
out timestamp update and release) is therefore unreachable; real time and
the semaphore are not modelled beyond this. -/

/-- `_begin_throttle_request`, line 351-356. -/
def beginThrottle (cfg : Config) : Except Exn Unit :=
  match cfg.throttleMs with
  | none => .ok ()
  | some _ =>
    match lookupHttpSockAttr (pyMangle "HttpRawSock" "__request_sem") with
    | none => .error (.attrError (pyMangle "HttpRawSock" "__request_sem"))
    | some _ => .ok ()

/-- `_end_throttle_request`, line 368-370 (the timestamp assignment on
`HttpSock` would succeed as a class-level setattr, but the subsequent
`release` hits the same missing mangled attribute). -/
def endThrottle (cfg : Config) : Except Exn Unit :=
  match cfg.throttleMs with
  | none => .ok ()
  | some _ =>
    match lookupHttpSockAttr (pyMangle "HttpRawSock" "__request_sem") with
    | none => .error (.attrError (pyMangle "HttpRawSock" "__request_sem"))
    | some _ => .ok ()

/-- `_sendRequest`: frame the message, begin throttling (outside the
`try`), then `sendall` with the wrapped-exception `try/except/finally`.
Returns the framed message actually written.  An exception raised by the
`finally` clause supersedes the pending result, per Python semantics. -/
def sendRequest (cfg : Config) (env : AttemptEnv) (msg : PyStr) : Except Exn PyStr := do
  let framed ← frameMessage cfg msg
  let _ ← beginThrottle cfg
  let res : Except Exn PyStr :=
    match env.sendErr with
    | some err => .error (.transport (pystr "Exception Sending Data: " ++ err))
    | none => .ok framed
  match endThrottle cfg with
  | .error e => .error e
  | .ok () => res

/-! ## Response assembly (`HttpRawSock._recvResponse`, lines 372-466) -/

/-- `decode_buf`: a successfully decodable buffer yields its text; on
decode failure the text is decoded ignoring offending bytes when
`ignore_decoding_failures` is set, and otherwise the decode exception is
re-raised (it is not a `TransportLayerException`). -/
def decodeBuf (cfg : Config) (text : PyStr) (decodeOk : Bool) : Except Exn PyStr :=
  if decodeOk then .ok text
  else if cfg.ignoreDecodingFailures then .ok text
  else .error .decodeFailure

/-- Outcome of the header-reading loop (lines 397-409): `earlyReturn` is
the `return data` on a zero-length read, `headerDone` is falling out of
the `while` with the delimiter buffered, `raised` is a propagating
exception. -/
inductive Phase1Out where
  | earlyReturn (data : PyStr)
  | headerDone (data : PyStr) (bytesReceived : Nat)
  | raised (e : Exn)
  deriving DecidableEq, Repr

/-- The `while DELIM not in data` loop: read, count bytes, return the
buffer on a zero-length read, else decode and accumulate.  An exhausted
event trace behaves as a closed peer (zero-length reads). -/
def readUntilDelim (cfg : Config) (data : PyStr) (bytesReceived : Nat)
    (tr : List RecvEvent) : Phase1Out × List RecvEvent :=
  if pyIn DELIM data then (.headerDone data bytesReceived, tr)
  else
    match tr with
    | [] => (.earlyReturn data, [])
    | .fail msg :: rest => (.raised (.transport (pystr "Exception: " ++ msg)), rest)
    | .data n text ok :: rest =>
      if n = 0 then (.earlyReturn data, rest)
      else
        match decodeBuf cfg text ok with
        | .error e => (.raised e, rest)
        | .ok t => readUntilDelim cfg (data ++ t) (bytesReceived + n) rest

/-- The chunked-transfer loop (lines 421-434): keep reading until the
buffer ends with the delimiter or a zero-length read. -/
def readChunked (cfg : Config) (data : PyStr) :
    List RecvEvent → (Except Exn PyStr) × List RecvEvent
  | [] => (.ok data, [])
  | .fail msg :: rest => (.error (.transport (pystr "Exception: " ++ msg)), rest)
  | .data n text ok :: rest =>
    if n = 0 then (.ok data, rest)
    else
      match decodeBuf cfg text ok with
      | .error e => (.error e, rest)
      | .ok t =>
        let data := data ++ t
        if pyEndsWith DELIM data then (.ok data, rest)
        else readChunked cfg data rest

/-- The content-length loop (lines 454-464): keep reading while
`bytes_remain > 0`, returning the partial buffer on a zero-length read. -/
def readRemaining (cfg : Config) (data : PyStr) (bytesRemain : Int)
    (tr : List RecvEvent) : (Except Exn PyStr) × List RecvEvent :=
  if 0 < bytesRemain then
    match tr with
    | [] => (.ok data, [])
    | .fail msg :: rest => (.error (.transport (pystr "Exception: " ++ msg)), rest)
    | .data n text ok :: rest =>
      if n = 0 then (.ok data, rest)
      else
        match decodeBuf cfg text ok with
        | .error e => (.error e, rest)
        | .ok t => readRemaining cfg (data ++ t) (bytesRemain - n) rest
  else (.ok data, tr)

/-- The chunked-transfer test on the buffered data (lines 413-414): the
source matches exactly the two spellings written there. -/
def chunkedDeclared (data : PyStr) : Bool :=
  pyIn (pystr "Transfer-Encoding: chunked\r\n") data ||
  pyIn (pystr "transfer-encoding: chunked\r\n") data

/-- The expected-body-length computation (lines 438-448): zero for an
exact `"HTTP/1.1 204"` / `"HTTP/1.1 304"` twelve-character prefix or a
HEAD request; otherwise `int` of the text between the first occurrence of
`"content-length: "` in the lowercased buffer (header and body alike) and
the following `"\r\n"`, bounded by the next occurrence of the pattern
(`split` semantics); `2**20` when the pattern is absent or `int` fails. -/
def contentLenOf (data methodName : PyStr) : Int :=
  if data.take 12 = pystr "HTTP/1.1 204" ∨ data.take 12 = pystr "HTTP/1.1 304" then 0
  else if pyUpper methodName = pystr "HEAD" then 0
  else
    let dl := pyLower data
    match pyFind (pystr "content-length: ") dl with
    | none => 2 ^ 20
    | some i =>
      let after := dl.drop (i + (pystr "content-length: ").length)
      let seg := takeUntil (pystr "content-length: ") after
      match parsePyInt (takeUntil (pystr "\r\n") seg) with
      | none => 2 ^ 20
      | some v => v

/-- `_recvResponse`: header phase, then either the chunked-encoding
handling (with the single-chunk early return) or the content-length
phase.  Returns the assembled text (or the propagating exception)
together with the unconsumed read events, so that "no further read" is
expressible.  The per-read `settimeout` call only affects real time and
is not modelled. -/
def recvResponse (cfg : Config) (methodName : PyStr) (tr : List RecvEvent) :
    (Except Exn PyStr) × List RecvEvent :=
  match readUntilDelim cfg [] 0 tr with
  | (.raised e, rest) => (.error e, rest)
  | (.earlyReturn d, rest) => (.ok d, rest)
  | (.headerDone data bytesReceived, rest) =>
    if chunkedDeclared data then
      if pyEndsWith DELIM data then (.ok data, rest)
      else readChunked cfg data rest
    else
      let headerLen := (pyFind DELIM data).getD 0 + DELIM.length
      let bytesRemain := contentLenOf data methodName - (bytesReceived : Int) + (headerLen : Int)
      readRemaining cfg data bytesRemain rest

/-! ## The retry policy (`HttpRawSock.sendRecv`, lines 227-304) -/

/-- `_contains_connection_closed`: the error text contains one of the
platform-specific connection-closed markers. -/
def containsConnectionClosed (errStr : PyStr) : Bool :=
  pyIn (pystr "[WinError 10054]") errStr ||
  pyIn (pystr "[WinError 10053]") errStr ||
  pyIn (pystr "[Errno 104]") errStr

/-- Outcome of the `try` body of `sendRecv`: a `return (True, response)`,
the empty-response recursive retry (`return self.sendRecv(..., True)`,
taken only when `reconnect` is unset), or a raised exception. -/
inductive BodyOut where
  | ret (success : Bool) (resp : HttpResponse)
  | emptyRetry
  | raised (e : Exn)
  deriving DecidableEq, Repr

/-- The body of `sendRecv` after the connection step: `_sendRequest`,
then (off the test-socket path) `_recvResponse`, the empty-response
check, and `HttpResponse` construction. -/
def afterConnect (cfg : Config) (env : AttemptEnv) (msg : PyStr) (reconnect : Bool)
    (st : SockState) (evs : List Ev) : BodyOut × SockState × List Ev :=
  match sendRequest cfg env msg with
  | .error e => (.raised e, st, evs)
  | .ok framed =>
    let evs := evs ++ [Ev.sendBytes framed]
    if cfg.useTestSocket then (.ret true env.testResp, st, evs)
    else
      match recvResponse cfg (getMethodFromMessage msg) env.recvs with
      | (.error e, _) => (.raised e, st, evs)
      | (.ok received, _) =>
        if received.isEmpty && !reconnect then (.emptyRetry, st, evs)
        else (.ret true (mkHttpResponse received), st, evs)

/-- The `try` body of one `sendRecv` pass: connect when `reconnect` is
set or the session is not yet connected (closing the current socket
first on a reconnect), then `afterConnect`.  Connection setup is
modelled from the spec: `set_up_connection` is called on lines 247 but
defined outside the sources; per the spec it establishes the TCP/TLS
connection and its failure is a fatal `ConnectionSetupError` propagated
to the caller, distinct from the wrapped transport errors. -/
def attemptBody (cfg : Config) (env : AttemptEnv) (msg : PyStr) (reconnect : Bool)
    (st : SockState) : BodyOut × SockState × List Ev :=
  if reconnect || !st.connected then
    let (st1, evs1) :=
      if reconnect && st.sockOpen then
        ({ st with sockOpen := false }, [Ev.closeSock])
      else (st, ([] : List Ev))
    match env.connectErr with
    | some m => (.raised (.connectionSetup m), st1, evs1 ++ [Ev.connect])
    | none =>
      afterConnect cfg env msg reconnect
        { st1 with sockOpen := true, connected := true } (evs1 ++ [Ev.connect])
  else afterConnect cfg env msg reconnect st [] 

/-- Result of one `sendRecv` pass: either a final result (with the
updated state and emitted events) or the request to re-enter with
`reconnect=True`. -/
inductive Step where
  | done (r : Except Exn (Bool × HttpResponse)) (st : SockState) (evs : List Ev)
  | retry (st : SockState) (evs : List Ev)
  deriving Repr

/-- One pass of `sendRecv`: the `try` body plus the
`except TransportLayerException` classifier (lines 265-281).  A timeout
error is terminal with the synthetic TIMEOUT status; connection-closed
and unknown errors retry once when `reconnect` is unset and are
otherwise terminal; every other exception propagates uncaught. -/
def sendRecvAttempt (cfg : Config) (env : AttemptEnv) (msg : PyStr) (reconnect : Bool)
    (st : SockState) : Step :=
  match attemptBody cfg env msg reconnect st with
  | (.ret b r, st1, evs) => .done (.ok (b, r)) st1 evs
  | (.emptyRetry, st1, evs) => .retry st1 evs
  | (.raised (.transport m), st1, evs) =>
    let resp := mkHttpResponse (stripQuotes m)
    if pyIn (pystr "timed out") m then
      .done (.ok (false, { resp with statusCode := TIMEOUT_CODE })) st1 evs
    else if containsConnectionClosed m then
      if reconnect then
        .done (.ok (false, { resp with statusCode := CONNECTION_CLOSED_CODE })) st1 evs
      else .retry st1 evs
    else
      if reconnect then .done (.ok (false, resp)) st1 evs
      else .retry st1 evs
  | (.raised e, st1, evs) => .done (.error e) st1 evs

/-- The external `sendRecv(message, req_timeout_sec)` call (default
`reconnect=False`), with the self-recursive retry unrolled: the second
pass runs with `reconnect=True`, and a retry request from it cannot occur
(see `sendRecvAttempt_reconnect_done`); the last branch is dead code
needed only for totality. -/
def sendRecv (cfg : Config) (env : Env) (msg : PyStr) (st : SockState) :
    Except Exn (Bool × HttpResponse) × SockState × List Ev :=
  match sendRecvAttempt cfg env.a1 msg false st with
  | .done r st1 evs1 => (r, st1, evs1)
  | .retry st1 evs1 =>
    match sendRecvAttempt cfg env.a2 msg true st1 with
    | .done r st2 evs2 => (r, st2, evs1 ++ evs2)
    | .retry st2 evs2 => (.ok (false, mkHttpResponse []), st2, evs1 ++ evs2)

/-! ## Basic facts about the string model -/

theorem pyStartsWith_iff {n h : PyStr} : pyStartsWith n h = true ↔ n <+: h := by
  induction n generalizing h with
  | nil => simp [pyStartsWith]
  | cons a as ih =>
    cases h with
    | nil => simp [pyStartsWith]
    | cons b bs =>
      simp [pyStartsWith, List.cons_prefix_cons, ih, and_comm]

theorem pyIn_iff {n h : PyStr} : pyIn n h = true ↔ n <:+: h := by
  induction h with
  | nil => simp [pyIn, pyStartsWith_iff, List.prefix_nil, List.infix_nil]
  | cons c r ih =>
    simp [pyIn, pyStartsWith_iff, ih, List.infix_cons_iff]

theorem pyIn_false_of_prefix {n h h' : PyStr} (hh : pyIn n h = false)
    (hp : h' <+: h) : pyIn n h' = false := by
  by_contra hc
  have : pyIn n h' = true := by
    cases hx : pyIn n h' with
    | true => rfl
    | false => exact absurd hx hc
  have : n <:+: h := (pyIn_iff.mp this).trans hp.isInfix
  rw [← pyIn_iff] at this
  rw [this] at hh
  simp at hh

theorem pyIn_mid (a n b : PyStr) : pyIn n (a ++ n ++ b) = true := by
  rw [pyIn_iff]
  exact ⟨a, b, by simp⟩

theorem pyFind_isSome_of_pyIn {n h : PyStr} (hin : pyIn n h = true) :
    ∃ i, pyFind n h = some i := by
  induction h with
  | nil =>
    simp only [pyIn] at hin
    exact ⟨0, by simp [pyFind, hin]⟩
  | cons c r ih =>
    simp only [pyIn, Bool.or_eq_true] at hin
    by_cases hs : pyStartsWith n (c :: r) = true
    · exact ⟨0, by simp [pyFind, hs]⟩
    · rcases hin with hin | hin
      · exact absurd hin hs
      · rcases ih hin with ⟨j, hj⟩
        exact ⟨j + 1, by simp [pyFind, hs, hj]⟩

theorem pyFind_startsWith {n h : PyStr} {i : Nat} (hf : pyFind n h = some i) :
    pyStartsWith n (h.drop i) = true := by
  induction h generalizing i with
  | nil =>
    simp only [pyFind] at hf
    split at hf
    · rename_i hs
      cases hf
      simpa using hs
    · cases hf
  | cons c r ih =>
    simp only [pyFind] at hf
    split at hf
    · rename_i hs
      cases hf
      simpa using hs
    · rcases Option.map_eq_some'.mp hf with ⟨j, hj, rfl⟩
      simpa using ih hj

theorem pyFind_decomp {n h : PyStr} {i : Nat} (hf : pyFind n h = some i) :
    h.take i ++ n ++ h.drop (i + n.length) = h := by
  have hs := pyStartsWith_iff.mp (pyFind_startsWith hf)
  rcases hs with ⟨t, ht⟩
  have hdrop : h.drop (i + n.length) = t := by
    have h1 : (h.drop i).drop n.length = t := by rw [← ht]; simp
    rw [← h1, List.drop_drop, Nat.add_comm]
  rw [hdrop]
  calc h.take i ++ n ++ t = h.take i ++ (n ++ t) := by simp
    _ = h.take i ++ h.drop i := by rw [ht]
    _ = h := List.take_append_drop i h

/-! ## Invariants of the assembler loops -/

/-- A read event whose decoding cannot raise under configuration `cfg`. -/
def decodableEv (cfg : Config) : RecvEvent → Prop
  | .data _ _ ok => ok = true ∨ cfg.ignoreDecodingFailures = true
  | .fail _ => True

/-- Every event of the trace is decodable. -/
def decodableTrace (cfg : Config) (tr : List RecvEvent) : Prop :=
  ∀ e ∈ tr, decodableEv cfg e

/-- Whether an exception is a `TransportLayerException`. -/
def Exn.isTransport : Exn → Bool
  | .transport _ => true
  | _ => false

theorem decodeBuf_ok {cfg : Config} {t : PyStr} {ok : Bool}
    (h : ok = true ∨ cfg.ignoreDecodingFailures = true) :
    decodeBuf cfg t ok = .ok t := by
  rcases h with h | h
  · simp [decodeBuf, h]
  · cases ok <;> simp [decodeBuf, h]

theorem decodableTrace_suffix {cfg : Config} {tr tr' : List RecvEvent}
    (h : decodableTrace cfg tr) (hs : tr' <:+ tr) : decodableTrace cfg tr' :=
  fun e he => h e (hs.subset he)

theorem readUntilDelim_suffix (cfg : Config) (tr : List RecvEvent) :
    ∀ (d : PyStr) (b : Nat), (readUntilDelim cfg d b tr).2 <:+ tr := by
  induction tr with
  | nil =>
    intro d b
    unfold readUntilDelim
    split
    · exact List.suffix_refl _
    · exact List.suffix_refl _
  | cons e rest ih =>
    intro d b
    unfold readUntilDelim
    split
    · exact List.suffix_refl _
    · cases e with
      | fail m => exact List.suffix_cons _ _
      | data n t ok =>
        simp only []
        split
        · exact List.suffix_cons _ _
        · split
          · exact List.suffix_cons _ _
          · exact (ih _ _).trans (List.suffix_cons _ _)

theorem readUntilDelim_raised (cfg : Config) (tr : List RecvEvent) :
    ∀ (d : PyStr) (b : Nat), decodableTrace cfg tr →
      ∀ ex rest1, readUntilDelim cfg d b tr = (.raised ex, rest1) →
        ex.isTransport = true := by
  induction tr with
  | nil =>
    intro d b _ ex rest1 h
    unfold readUntilDelim at h
    split at h
    · cases h
    · cases h
  | cons e rest ih =>
    intro d b hd ex rest1 h
    unfold readUntilDelim at h
    split at h
    · cases h
    · cases e with
      | fail m =>
        cases h
        rfl
      | data n t ok =>
        simp only [] at h
        split at h
        · cases h
        · have hev : decodableEv cfg (RecvEvent.data n t ok) := hd _ (by simp)
          rw [decodeBuf_ok hev] at h
          exact ih _ _ (fun e he => hd e (by simp [he])) _ _ h

theorem readChunked_suffix (cfg : Config) (tr : List RecvEvent) :
    ∀ (d : PyStr), (readChunked cfg d tr).2 <:+ tr := by
  induction tr with
  | nil => intro d; exact List.suffix_refl _
  | cons e rest ih =>
    intro d
    cases e with
    | fail m => exact List.suffix_cons _ _
    | data n t ok =>
      unfold readChunked
      simp only []
      split
      · exact List.suffix_cons _ _
      · split
        · exact List.suffix_cons _ _
        · split
          · exact List.suffix_cons _ _
          · exact (ih _).trans (List.suffix_cons _ _)

theorem readChunked_raised (cfg : Config) (tr : List RecvEvent) :
    ∀ (d : PyStr), decodableTrace cfg tr →
      ∀ ex rest1, readChunked cfg d tr = (.error ex, rest1) →
        ex.isTransport = true := by
  induction tr with
  | nil =>
    intro d _ ex rest1 h
    cases h
  | cons e rest ih =>
    intro d hd ex rest1 h
    cases e with
    | fail m =>
      cases h
      rfl
    | data n t ok =>
      unfold readChunked at h
      simp only [] at h
      have hev : decodableEv cfg (RecvEvent.data n t ok) := hd _ (by simp)
      split at h
      · cases h
      · split at h
        next e heq =>
          rw [decodeBuf_ok hev] at heq
          simp at heq
        next t' heq =>
          split at h
          · cases h
          · exact ih _ (fun e he => hd e (by simp [he])) _ _ h

/-- The chunked loop only returns successfully when the buffer ends with
the delimiter, the trace is exhausted, or a zero-length read occurred. -/
theorem readChunked_ok_stop (cfg : Config) (tr : List RecvEvent) :
    ∀ (d d' : PyStr) (rest' : List RecvEvent),
      readChunked cfg d tr = (.ok d', rest') →
      pyEndsWith DELIM d' = true ∨ rest' = [] ∨
        ∃ pre t ok, tr = pre ++ RecvEvent.data 0 t ok :: rest' := by
  induction tr with
  | nil =>
    intro d d' rest' h
    cases h
    exact Or.inr (Or.inl rfl)
  | cons e rest ih =>
    intro d d' rest' h
    cases e with
    | fail m => cases h
    | data n t ok =>
      unfold readChunked at h
      simp only [] at h
      split at h
      · rename_i hn
        cases h
        exact Or.inr (Or.inr ⟨[], t, ok, by simp [hn]⟩)
      · split at h
        · cases h
        · rename_i t' hdec
          split at h
          · rename_i hend
            cases h
            exact Or.inl hend
          · rcases ih _ _ _ h with h1 | h1 | ⟨pre, t0, ok0, h1⟩
            · exact Or.inl h1
            · exact Or.inr (Or.inl h1)
            · exact Or.inr (Or.inr ⟨RecvEvent.data n t ok :: pre, t0, ok0, by simp [h1]⟩)

theorem readRemaining_suffix (cfg : Config) (tr : List RecvEvent) :
    ∀ (d : PyStr) (r : Int), (readRemaining cfg d r tr).2 <:+ tr := by
  induction tr with
  | nil =>
    intro d r
    unfold readRemaining
    split
    · exact List.suffix_refl _
    · exact List.suffix_refl _
  | cons e rest ih =>
    intro d r
    unfold readRemaining
    split
    · cases e with
      | fail m => exact List.suffix_cons _ _
      | data n t ok =>
        simp only []
        split
        · exact List.suffix_cons _ _
        · split
          · exact List.suffix_cons _ _
          · exact (ih _ _).trans (List.suffix_cons _ _)
    · exact List.suffix_refl _

theorem readRemaining_raised (cfg : Config) (tr : List RecvEvent) :
    ∀ (d : PyStr) (r : Int), decodableTrace cfg tr →
      ∀ ex rest1, readRemaining cfg d r tr = (.error ex, rest1) →
        ex.isTransport = true := by
  induction tr with
  | nil =>
    intro d r _ ex rest1 h
    unfold readRemaining at h
    split at h
    · cases h
    · cases h
  | cons e rest ih =>
    intro d r hd ex rest1 h
    unfold readRemaining at h
    split at h
    · cases e with
      | fail m =>
        cases h
        rfl
      | data n t ok =>
        simp only [] at h
        have hev : decodableEv cfg (RecvEvent.data n t ok) := hd _ (by simp)
        split at h
        · cases h
        · split at h
          next e heq =>
            rw [decodeBuf_ok hev] at heq
            simp at heq
          next t' heq =>
            exact ih _ _ (fun e he => hd e (by simp [he])) _ _ h
    · cases h

/-- When the remaining-byte budget is not positive, the content-length
loop performs no read at all. -/
theorem readRemaining_nonpos (cfg : Config) (d : PyStr) (r : Int) (tr : List RecvEvent)
    (h : r ≤ 0) : readRemaining cfg d r tr = (.ok d, tr) := by
  unfold readRemaining
  split
  · omega
  · rfl

/-- A zero-length read inside the content-length loop returns the
partial buffer without error. -/
theorem readRemaining_zero_read (cfg : Config) (d : PyStr) (r : Int) (t : PyStr)
    (ok : Bool) (tr : List RecvEvent) (h : 0 < r) :
    readRemaining cfg d r (RecvEvent.data 0 t ok :: tr) = (.ok d, tr) := by
  unfold readRemaining
  split
  · simp
  · omega

/-- The assembler can only raise `TransportLayerException`s on a
decodable trace. -/
theorem recvResponse_err_transport (cfg : Config) (mn : PyStr) (tr : List RecvEvent)
    (hd : decodableTrace cfg tr) :
    ∀ ex rest, recvResponse cfg mn tr = (.error ex, rest) → ex.isTransport = true := by
  intro ex rest h
  unfold recvResponse at h
  rcases hru : readUntilDelim cfg [] 0 tr with ⟨out, rest1⟩
  rw [hru] at h
  have hsuf : rest1 <:+ tr := by
    have := readUntilDelim_suffix cfg tr [] 0
    rw [hru] at this
    exact this
  have hd1 : decodableTrace cfg rest1 := decodableTrace_suffix hd hsuf
  cases out with
  | raised e =>
    cases h
    have := readUntilDelim_raised cfg tr [] 0 hd _ _ hru
    exact this
  | earlyReturn d => cases h
  | headerDone d b =>
    simp only [] at h
    split at h
    · split at h
      · cases h
      · exact readChunked_raised cfg rest1 _ hd1 _ _ h
    · exact readRemaining_raised cfg rest1 _ _ hd1 _ _ h

/-! ## Invariants of the send path and the retry policy -/

theorem appendToHeader_ok {msg : PyStr} (content : PyStr) {i : Nat}
    (hf : pyFind DELIM msg = some i) :
    appendToHeader msg content =
      .ok (msg.take i ++ pystr "\r\n" ++ content ++ DELIM ++ msg.drop (i + DELIM.length)) := by
  unfold appendToHeader
  rw [hf]

theorem pyIn_delim_appendToHeader (a content b : PyStr) :
    pyIn DELIM (a ++ pystr "\r\n" ++ content ++ DELIM ++ b) = true := by
  have : a ++ pystr "\r\n" ++ content ++ DELIM ++ b
      = (a ++ pystr "\r\n" ++ content) ++ DELIM ++ b := by simp
  rw [this]
  exact pyIn_mid _ _ _

theorem appendToHeader_isOk {msg : PyStr} (content : PyStr) (h : pyIn DELIM msg = true) :
    ∃ m, appendToHeader msg content = .ok m ∧ pyIn DELIM m = true := by
  rcases pyFind_isSome_of_pyIn h with ⟨i, hi⟩
  exact ⟨_, appendToHeader_ok content hi, pyIn_delim_appendToHeader _ _ _⟩

theorem addContentLength_ok {msg : PyStr} (h : pyIn DELIM msg = true) :
    ∃ m, addContentLength msg = .ok m ∧ pyIn DELIM m = true := by
  by_cases hcl : pyIn (pystr "Content-Length: ") msg = true
  · exact ⟨msg, by simp [addContentLength, hcl], h⟩
  · simp only [Bool.not_eq_true] at hcl
    rcases pyFind_isSome_of_pyIn h with ⟨i, hi⟩
    rcases appendToHeader_isOk
      (pystr "Content-Length: " ++ (toString (msg.drop (i + DELIM.length)).length).toList) h
      with ⟨m, hm, hd⟩
    refine ⟨m, ?_, hd⟩
    unfold addContentLength
    rw [hcl, hi]
    simpa using hm

theorem frameMessage_ok (cfg : Config) {msg : PyStr} (h : pyIn DELIM msg = true) :
    ∃ m, frameMessage cfg msg = .ok m := by
  rcases addContentLength_ok h with ⟨m1, hm1, hd1⟩
  by_cases hua : cfg.includeUserAgent
  · rcases appendToHeader_isOk (pystr "User-Agent: restler/" ++ cfg.version) hd1
      with ⟨m2, hm2, _⟩
    refine ⟨m2, ?_⟩
    unfold frameMessage
    rw [hm1]
    show (if cfg.includeUserAgent then _ else _) = _
    rw [if_pos hua]
    exact hm2
  · refine ⟨m1, ?_⟩
    unfold frameMessage
    rw [hm1]
    show (if cfg.includeUserAgent then _ else _) = _
    rw [if_neg hua]

theorem beginThrottle_none {cfg : Config} (h : cfg.throttleMs = none) :
    beginThrottle cfg = .ok () := by
  unfold beginThrottle
  rw [h]

theorem endThrottle_none {cfg : Config} (h : cfg.throttleMs = none) :
    endThrottle cfg = .ok () := by
  unfold endThrottle
  rw [h]

theorem sendRequest_ok (cfg : Config) (env : AttemptEnv) {msg m : PyStr}
    (hthr : cfg.throttleMs = none) (hsend : env.sendErr = none)
    (hm : frameMessage cfg msg = .ok m) :
    sendRequest cfg env msg = .ok m := by
  unfold sendRequest
  simp only [hm, beginThrottle_none hthr, endThrottle_none hthr, hsend, Bind.bind, Except.bind]

theorem sendRequest_err (cfg : Config) (env : AttemptEnv) {msg m : PyStr} {err : PyStr}
    (hthr : cfg.throttleMs = none) (hsend : env.sendErr = some err)
    (hm : frameMessage cfg msg = .ok m) :
    sendRequest cfg env msg = .error (.transport (pystr "Exception Sending Data: " ++ err)) := by
  unfold sendRequest
  simp only [hm, beginThrottle_none hthr, endThrottle_none hthr, hsend, Bind.bind, Except.bind]

theorem afterConnect_raised_send (cfg : Config) (env : AttemptEnv) (msg : PyStr)
    (rc : Bool) (st : SockState) (evs : List Ev) {e : Exn}
    (hsr : sendRequest cfg env msg = .error e) :
    afterConnect cfg env msg rc st evs = (.raised e, st, evs) := by
  unfold afterConnect
  rw [hsr]

theorem afterConnect_eq (cfg : Config) (env : AttemptEnv) (msg : PyStr)
    (rc : Bool) (st : SockState) (evs : List Ev) {m received : PyStr} {rest : List RecvEvent}
    (hsr : sendRequest cfg env msg = .ok m) (hts : cfg.useTestSocket = false)
    (hrecv : recvResponse cfg (getMethodFromMessage msg) env.recvs = (.ok received, rest)) :
    afterConnect cfg env msg rc st evs =
      (if received.isEmpty && !rc then .emptyRetry else .ret true (mkHttpResponse received),
       st, evs ++ [Ev.sendBytes m]) := by
  unfold afterConnect
  rw [hsr]
  simp only [hts, Bool.false_eq_true, if_false, hrecv]
  split <;> rfl

theorem afterConnect_raised_recv (cfg : Config) (env : AttemptEnv) (msg : PyStr)
    (rc : Bool) (st : SockState) (evs : List Ev) {m : PyStr} {e : Exn} {rest : List RecvEvent}
    (hsr : sendRequest cfg env msg = .ok m) (hts : cfg.useTestSocket = false)
    (hrecv : recvResponse cfg (getMethodFromMessage msg) env.recvs = (.error e, rest)) :
    afterConnect cfg env msg rc st evs = (.raised e, st, evs ++ [Ev.sendBytes m]) := by
  unfold afterConnect
  rw [hsr]
  simp only [hts, Bool.false_eq_true, if_false, hrecv]

theorem afterConnect_true_ne_emptyRetry (cfg : Config) (env : AttemptEnv) (msg : PyStr)
    (st : SockState) (evs : List Ev) :
    (afterConnect cfg env msg true st evs).1 ≠ .emptyRetry := by
  unfold afterConnect
  split
  · simp
  · split
    · simp
    · split
      · simp
      · simp

theorem afterConnect_evs (cfg : Config) (env : AttemptEnv) (msg : PyStr)
    (rc : Bool) (st : SockState) (evs : List Ev) :
    ∃ evs', (afterConnect cfg env msg rc st evs).2.2 = evs ++ evs' ∧
      ∀ e ∈ evs', ∃ fr, e = Ev.sendBytes fr := by
  unfold afterConnect
  split
  · exact ⟨[], by simp, by simp⟩
  · rename_i framed heq
    split
    · exact ⟨[Ev.sendBytes framed], rfl, by simp⟩
    · split
      · exact ⟨[Ev.sendBytes framed], rfl, by simp⟩
      · split
        · exact ⟨[Ev.sendBytes framed], rfl, by simp⟩
        · exact ⟨[Ev.sendBytes framed], rfl, by simp⟩

theorem attemptBody_connect_ok (cfg : Config) (env : AttemptEnv) (msg : PyStr)
    (rc : Bool) (st : SockState)
    (hneed : (rc || !st.connected) = true) (hconn : env.connectErr = none) :
    attemptBody cfg env msg rc st =
      afterConnect cfg env msg rc { connected := true, sockOpen := true }
        ((if rc && st.sockOpen then [Ev.closeSock] else []) ++ [Ev.connect]) := by
  cases st with
  | mk c s =>
    unfold attemptBody
    simp only [hneed, if_true, hconn]
    by_cases hso : (rc && s) = true
    · simp [hso]
    · simp only [Bool.not_eq_true] at hso
      simp [hso]

theorem attemptBody_no_connect (cfg : Config) (env : AttemptEnv) (msg : PyStr)
    (st : SockState) (hc : st.connected = true) :
    attemptBody cfg env msg false st = afterConnect cfg env msg false st [] := by
  unfold attemptBody
  simp [hc]

theorem attemptBody_true_ne_emptyRetry (cfg : Config) (env : AttemptEnv) (msg : PyStr)
    (st : SockState) :
    (attemptBody cfg env msg true st).1 ≠ .emptyRetry := by
  cases hconn : env.connectErr with
  | some m =>
    unfold attemptBody
    simp only [Bool.true_or, if_true, hconn]
    cases hso : (true && st.sockOpen) <;> simp
  | none =>
    rw [attemptBody_connect_ok cfg env msg true st (by simp) hconn]
    exact afterConnect_true_ne_emptyRetry _ _ _ _ _

theorem sendRecvAttempt_of_ret {cfg : Config} {env : AttemptEnv} {msg : PyStr}
    {rc : Bool} {st : SockState} {b : Bool} {r : HttpResponse} {st1 : SockState} {evs : List Ev}
    (h : attemptBody cfg env msg rc st = (.ret b r, st1, evs)) :
    sendRecvAttempt cfg env msg rc st = .done (.ok (b, r)) st1 evs := by
  unfold sendRecvAttempt
  rw [h]

theorem sendRecvAttempt_of_emptyRetry {cfg : Config} {env : AttemptEnv} {msg : PyStr}
    {rc : Bool} {st : SockState} {st1 : SockState} {evs : List Ev}
    (h : attemptBody cfg env msg rc st = (.emptyRetry, st1, evs)) :
    sendRecvAttempt cfg env msg rc st = .retry st1 evs := by
  unfold sendRecvAttempt
  rw [h]

theorem sendRecvAttempt_of_transport {cfg : Config} {env : AttemptEnv} {msg : PyStr}
    {rc : Bool} {st : SockState} {m : PyStr} {st1 : SockState} {evs : List Ev}
    (h : attemptBody cfg env msg rc st = (.raised (.transport m), st1, evs)) :
    sendRecvAttempt cfg env msg rc st =
      (if pyIn (pystr "timed out") m then
        .done (.ok (false,
          { mkHttpResponse (stripQuotes m) with statusCode := TIMEOUT_CODE })) st1 evs
      else if containsConnectionClosed m then
        (if rc then
          .done (.ok (false,
            { mkHttpResponse (stripQuotes m) with statusCode := CONNECTION_CLOSED_CODE })) st1 evs
        else .retry st1 evs)
      else
        (if rc then .done (.ok (false, mkHttpResponse (stripQuotes m))) st1 evs
        else .retry st1 evs)) := by
  unfold sendRecvAttempt
  rw [h]

theorem sendRecvAttempt_of_raised_other {cfg : Config} {env : AttemptEnv} {msg : PyStr}
    {rc : Bool} {st : SockState} {e : Exn} {st1 : SockState} {evs : List Ev}
    (h : attemptBody cfg env msg rc st = (.raised e, st1, evs))
    (he : e.isTransport = false) :
    sendRecvAttempt cfg env msg rc st = .done (.error e) st1 evs := by
  unfold sendRecvAttempt
  rw [h]
  cases e with
  | transport m => simp [Exn.isTransport] at he
  | connectionSetup m => rfl
  | decodeFailure => rfl
  | attrError n => rfl
  | valueError => rfl

/-- A pass running with the retry flag already set always finishes: it
never requests a further reconnect-and-retry. -/
theorem sendRecvAttempt_true_done (cfg : Config) (env : AttemptEnv) (msg : PyStr)
    (st : SockState) :
    ∃ r st1 evs, sendRecvAttempt cfg env msg true st = .done r st1 evs := by
  rcases hab : attemptBody cfg env msg true st with ⟨out, st1, evs⟩
  cases out with
  | ret b r => exact ⟨_, _, _, sendRecvAttempt_of_ret hab⟩
  | emptyRetry =>
    exfalso
    have h1 := attemptBody_true_ne_emptyRetry cfg env msg st
    rw [hab] at h1
    exact h1 rfl
  | raised e =>
    cases e with
    | transport m =>
      rw [sendRecvAttempt_of_transport hab]
      by_cases h1 : pyIn (pystr "timed out") m = true
      · exact ⟨_, _, _, by rw [if_pos h1]⟩
      · by_cases h2 : containsConnectionClosed m = true
        · exact ⟨_, _, _, by rw [if_neg h1, if_pos h2, if_pos rfl]⟩
        · exact ⟨_, _, _, by rw [if_neg h1, if_neg h2, if_pos rfl]⟩
    | connectionSetup m => exact ⟨_, _, _, sendRecvAttempt_of_raised_other hab rfl⟩
    | decodeFailure => exact ⟨_, _, _, sendRecvAttempt_of_raised_other hab rfl⟩
    | attrError n => exact ⟨_, _, _, sendRecvAttempt_of_raised_other hab rfl⟩
    | valueError => exact ⟨_, _, _, sendRecvAttempt_of_raised_other hab rfl⟩

/-- Unfolding of `sendRecv` when the first pass finishes. -/
theorem sendRecv_done {cfg : Config} {env : Env} {msg : PyStr} {st : SockState}
    {r : Except Exn (Bool × HttpResponse)} {st1 : SockState} {evs1 : List Ev}
    (h : sendRecvAttempt cfg env.a1 msg false st = .done r st1 evs1) :
    sendRecv cfg env msg st = (r, st1, evs1) := by
  unfold sendRecv
  rw [h]

/-- Unfolding of `sendRecv` when the first pass requests the retry. -/
theorem sendRecv_retry {cfg : Config} {env : Env} {msg : PyStr} {st : SockState}
    {st1 : SockState} {evs1 : List Ev} {r : Except Exn (Bool × HttpResponse)}
    {st2 : SockState} {evs2 : List Ev}
    (h : sendRecvAttempt cfg env.a1 msg false st = .retry st1 evs1)
    (h2 : sendRecvAttempt cfg env.a2 msg true st1 = .done r st2 evs2) :
    sendRecv cfg env msg st = (r, st2, evs1 ++ evs2) := by
  unfold sendRecv
  simp only [h, h2]

theorem afterConnect_forms (cfg : Config) (env : AttemptEnv) (msg : PyStr)
    (rc : Bool) (st : SockState) (evs : List Ev)
    (hthr : cfg.throttleMs = none) (hts : cfg.useTestSocket = false)
    (hmsg : pyIn DELIM msg = true) (hdec : decodableTrace cfg env.recvs) :
    (∃ r st1 evs1, afterConnect cfg env msg rc st evs = (.ret true r, st1, evs1)) ∨
    (∃ st1 evs1, afterConnect cfg env msg rc st evs = (.emptyRetry, st1, evs1)) ∨
    (∃ m st1 evs1, afterConnect cfg env msg rc st evs = (.raised (.transport m), st1, evs1)) := by
  rcases frameMessage_ok cfg hmsg with ⟨fm, hfm⟩
  cases hse : env.sendErr with
  | some err =>
    right; right
    exact ⟨_, _, _, afterConnect_raised_send _ _ _ _ _ _ (sendRequest_err cfg env hthr hse hfm)⟩
  | none =>
    have hsr := sendRequest_ok cfg env hthr hse hfm
    rcases hrr : recvResponse cfg (getMethodFromMessage msg) env.recvs with ⟨res, rest⟩
    cases res with
    | error e =>
      have hT := recvResponse_err_transport cfg _ _ hdec _ _ hrr
      cases e with
      | transport m =>
        right; right
        exact ⟨m, _, _, afterConnect_raised_recv _ _ _ _ _ _ hsr hts hrr⟩
      | connectionSetup m => simp [Exn.isTransport] at hT
      | decodeFailure => simp [Exn.isTransport] at hT
      | attrError n => simp [Exn.isTransport] at hT
      | valueError => simp [Exn.isTransport] at hT
    | ok received =>
      rw [afterConnect_eq _ _ _ _ _ _ hsr hts hrr]
      by_cases he : (received.isEmpty && !rc) = true
      · right; left
        exact ⟨_, _, by rw [if_pos he]⟩
      · left
        exact ⟨_, _, _, by rw [if_neg he]⟩

theorem attemptBody_forms (cfg : Config) (env : AttemptEnv) (msg : PyStr)
    (rc : Bool) (st : SockState)
    (hthr : cfg.throttleMs = none) (hts : cfg.useTestSocket = false)
    (hconn : env.connectErr = none) (hmsg : pyIn DELIM msg = true)
    (hdec : decodableTrace cfg env.recvs) :
    (∃ r st1 evs, attemptBody cfg env msg rc st = (.ret true r, st1, evs)) ∨
    (∃ st1 evs, attemptBody cfg env msg rc st = (.emptyRetry, st1, evs)) ∨
    (∃ m st1 evs, attemptBody cfg env msg rc st = (.raised (.transport m), st1, evs)) := by
  by_cases hneed : (rc || !st.connected) = true
  · rw [attemptBody_connect_ok cfg env msg rc st hneed hconn]
    exact afterConnect_forms cfg env msg rc _ _ hthr hts hmsg hdec
  · have hrc : rc = false := by
      cases rc
      · rfl
      · simp at hneed
    have hc : st.connected = true := by
      cases hcc : st.connected
      · rw [hrc, hcc] at hneed
        simp at hneed
      · rfl
    rw [hrc, attemptBody_no_connect cfg env msg st hc]
    exact afterConnect_forms cfg env msg false _ _ hthr hts hmsg hdec

theorem sendRecvAttempt_forms (cfg : Config) (env : AttemptEnv) (msg : PyStr)
    (rc : Bool) (st : SockState)
    (hthr : cfg.throttleMs = none) (hts : cfg.useTestSocket = false)
    (hconn : env.connectErr = none) (hmsg : pyIn DELIM msg = true)
    (hdec : decodableTrace cfg env.recvs) :
    (∃ b r st1 evs, sendRecvAttempt cfg env msg rc st = .done (.ok (b, r)) st1 evs) ∨
    (∃ st1 evs, sendRecvAttempt cfg env msg rc st = .retry st1 evs) := by
  rcases attemptBody_forms cfg env msg rc st hthr hts hconn hmsg hdec with
    ⟨r, st1, evs, h⟩ | ⟨st1, evs, h⟩ | ⟨m, st1, evs, h⟩
  · left
    exact ⟨true, r, st1, evs, sendRecvAttempt_of_ret h⟩
  · right
    exact ⟨_, _, sendRecvAttempt_of_emptyRetry h⟩
  · rw [sendRecvAttempt_of_transport h]
    by_cases h1 : pyIn (pystr "timed out") m = true
    · rw [if_pos h1]
      left
      exact ⟨_, _, _, _, rfl⟩
    · rw [if_neg h1]
      by_cases h2 : containsConnectionClosed m = true
      · rw [if_pos h2]
        cases rc with
        | true =>
          rw [if_pos rfl]
          left
          exact ⟨_, _, _, _, rfl⟩
        | false =>
          rw [if_neg (by simp)]
          right
          exact ⟨_, _, rfl⟩
      · rw [if_neg h2]
        cases rc with
        | true =>
          rw [if_pos rfl]
          left
          exact ⟨_, _, _, _, rfl⟩
        | false =>
          rw [if_neg (by simp)]
          right
          exact ⟨_, _, rfl⟩

/-- With working throttle configuration (no interval set), successful
connection setup and decodable data, `sendRecv` always returns a
`(success, response)` pair: transport-layer failures never escape. -/
theorem sendRecv_ok (cfg : Config) (env : Env) (msg : PyStr) (st : SockState)
    (hthr : cfg.throttleMs = none) (hts : cfg.useTestSocket = false)
    (hc1 : env.a1.connectErr = none) (hc2 : env.a2.connectErr = none)
    (hmsg : pyIn DELIM msg = true)
    (hd1 : decodableTrace cfg env.a1.recvs) (hd2 : decodableTrace cfg env.a2.recvs) :
    ∃ b resp st' evs, sendRecv cfg env msg st = (.ok (b, resp), st', evs) := by
  rcases sendRecvAttempt_forms cfg env.a1 msg false st hthr hts hc1 hmsg hd1 with
    ⟨b, r, st1, evs, h⟩ | ⟨st1, evs1, h⟩
  · exact ⟨b, r, st1, evs, sendRecv_done h⟩
  · rcases sendRecvAttempt_forms cfg env.a2 msg true st1 hthr hts hc2 hmsg hd2 with
      ⟨b, r, st2, evs2, h2⟩ | ⟨st2, evs2, h2⟩
    · exact ⟨b, r, st2, evs1 ++ evs2, sendRecv_retry h h2⟩
    · exfalso
      rcases sendRecvAttempt_true_done cfg env.a2 msg st1 with ⟨r, st2', evs2', hdone⟩
      rw [hdone] at h2
      exact Step.noConfusion h2

/-- The decoded texts delivered by a list of read events. -/
def joinTexts (l : List RecvEvent) : PyStr :=
  (l.map fun e => match e with | .data _ t _ => t | .fail _ => []).flatten

/-- Running the header loop over positive decodable reads whose
accumulated text never contains the delimiter, a zero-length read makes
it return everything buffered so far, without error. -/
theorem readUntilDelim_zero_stop (cfg : Config) (pre : List RecvEvent) :
    ∀ (d : PyStr) (b : Nat) (t0 : PyStr) (ok0 : Bool) (rest : List RecvEvent),
    (∀ e ∈ pre, ∃ n t, e = RecvEvent.data n t true ∧ 0 < n) →
    pyIn DELIM (d ++ joinTexts pre) = false →
    readUntilDelim cfg d b (pre ++ RecvEvent.data 0 t0 ok0 :: rest) =
      (.earlyReturn (d ++ joinTexts pre), rest) := by
  induction pre with
  | nil =>
    intro d b t0 ok0 rest _ hnin
    simp only [joinTexts, List.map_nil, List.flatten_nil, List.append_nil] at hnin ⊢
    unfold readUntilDelim
    rw [hnin]
    simp
  | cons e pre ih =>
    intro d b t0 ok0 rest hall hnin
    rcases hall e (by simp) with ⟨n, t, he, hn⟩
    subst he
    have hjoin : joinTexts (RecvEvent.data n t true :: pre) = t ++ joinTexts pre := by
      simp [joinTexts]
    rw [hjoin] at hnin ⊢
    have hd : pyIn DELIM d = false :=
      pyIn_false_of_prefix hnin (List.prefix_append _ _)
    unfold readUntilDelim
    rw [hd]
    simp only [Bool.false_eq_true, if_false, List.cons_append]
    rw [if_neg (by omega)]
    rw [decodeBuf_ok (Or.inl rfl)]
    have hnin' : pyIn DELIM ((d ++ t) ++ joinTexts pre) = false := by
      rw [List.append_assoc]
      exact hnin
    have heq := ih (d ++ t) (b + n) t0 ok0 rest
      (fun e he => hall e (by simp [he])) hnin'
    show readUntilDelim cfg (d ++ t) (b + n) (pre ++ RecvEvent.data 0 t0 ok0 :: rest) = _
    rw [heq, List.append_assoc]

theorem pyFind_none_of_not_pyIn {n h : PyStr} (hin : pyIn n h = false) :
    pyFind n h = none := by
  induction h with
  | nil =>
    simp only [pyIn] at hin
    simp [pyFind, hin]
  | cons c r ih =>
    simp only [pyIn, Bool.or_eq_false_iff] at hin
    rcases hin with ⟨h1, h2⟩
    simp [pyFind, h1, ih h2]

/-- The assembler on a trace whose reads never show the delimiter and
then hit a zero-length read: everything buffered is returned, no error,
nothing consumed beyond the closing read. -/
theorem recvResponse_zero_read (cfg : Config) (mn : PyStr) (pre rest : List RecvEvent)
    (t0 : PyStr) (ok0 : Bool)
    (hall : ∀ e ∈ pre, ∃ n t, e = RecvEvent.data n t true ∧ 0 < n)
    (hnin : pyIn DELIM (joinTexts pre) = false) :
    recvResponse cfg mn (pre ++ RecvEvent.data 0 t0 ok0 :: rest)
      = (.ok (joinTexts pre), rest) := by
  unfold recvResponse
  have h := readUntilDelim_zero_stop cfg pre [] 0 t0 ok0 rest hall (by simpa using hnin)
  rw [h]
  simp

/-- A first (non-retry) pass that receives an empty response requests the
reconnect-and-retry. -/
theorem firstAttempt_empty_retry (cfg : Config) (env : AttemptEnv) (msg : PyStr)
    (st : SockState)
    (hts : cfg.useTestSocket = false) (hthr : cfg.throttleMs = none)
    (hconn : env.connectErr = none) (hsend : env.sendErr = none)
    (hmsg : pyIn DELIM msg = true)
    (hrecv : (recvResponse cfg (getMethodFromMessage msg) env.recvs).1 = .ok []) :
    ∃ st1 evs1, sendRecvAttempt cfg env msg false st = .retry st1 evs1 := by
  rcases frameMessage_ok cfg hmsg with ⟨fm, hfm⟩
  have hsr := sendRequest_ok cfg env hthr hsend hfm
  rcases hrr : recvResponse cfg (getMethodFromMessage msg) env.recvs with ⟨res, rest⟩
  rw [hrr] at hrecv
  have hres : res = .ok [] := hrecv
  subst hres
  have key : ∀ (stX : SockState) (evsX : List Ev),
      afterConnect cfg env msg false stX evsX
        = (.emptyRetry, stX, evsX ++ [Ev.sendBytes fm]) := by
    intro stX evsX
    rw [afterConnect_eq _ _ _ _ _ _ hsr hts hrr]
    simp
  by_cases hc : st.connected = true
  · have hab := attemptBody_no_connect cfg env msg st hc
    rw [key st []] at hab
    exact ⟨st, _, sendRecvAttempt_of_emptyRetry hab⟩
  · have hneed : ((false : Bool) || !st.connected) = true := by
      cases hcc : st.connected
      · simp
      · exact absurd hcc hc
    have hab := attemptBody_connect_ok cfg env msg false st hneed hconn
    rw [key _ _] at hab
    exact ⟨_, _, sendRecvAttempt_of_emptyRetry hab⟩

/-! ## Concrete fixtures used by witnesses and counterexamples -/

/-- A production configuration: no throttle, no user agent, strict
decoding, real socket. -/
def cfgPlain : Config :=
  { throttleMs := none, includeUserAgent := false, version := pystr "x",
    ignoreDecodingFailures := false, useTestSocket := false }

/-- The same configuration with a 1000 ms request throttle. -/
def cfgThrottled : Config := { cfgPlain with throttleMs := some 1000 }

/-- An attempt environment with successful connect and send and the given
reads. -/
def envRecv (tr : List RecvEvent) : AttemptEnv :=
  { connectErr := none, sendErr := none, recvs := tr, testResp := mkHttpResponse [] }

/-- An attempt environment whose `sendall` raises with the given text. -/
def envSendFail (m : String) : AttemptEnv :=
  { connectErr := none, sendErr := some (pystr m), recvs := [],
    testResp := mkHttpResponse [] }

def msgGet : PyStr := pystr "GET /x HTTP/1.1\r\n\r\n"

def framedGet : PyStr := pystr "GET /x HTTP/1.1\r\nContent-Length: 0\r\n\r\n"

/-! ## The claims -/

/-- C1: for every external `sendRecv` call at most one reconnect-and-retry
is performed: a pass running with the retry flag set always finishes and
never triggers a further reconnect, and when the first pass requests the
retry and the retried pass fails with a qualifying (non-timeout)
transport failure, the call ends in a terminal classified failure — with
the CONNECTION_CLOSED sentinel when the error is classified as
connection-closed — not a further retry. -/
theorem C1_retry_flag_terminal :
    (∀ (cfg : Config) (env : AttemptEnv) (msg : PyStr) (st : SockState),
       ∃ r st1 evs, sendRecvAttempt cfg env msg true st = .done r st1 evs) ∧
    (∀ (cfg : Config) (env : Env) (msg : PyStr) (st st1 : SockState) (evs1 : List Ev)
       (m : PyStr) (st2 : SockState) (evs2 : List Ev),
       sendRecvAttempt cfg env.a1 msg false st = .retry st1 evs1 →
       attemptBody cfg env.a2 msg true st1 = (.raised (.transport m), st2, evs2) →
       pyIn (pystr "timed out") m = false →
       ∃ resp, sendRecv cfg env msg st = (.ok (false, resp), st2, evs1 ++ evs2) ∧
         (containsConnectionClosed m = true →
           resp.statusCode = CONNECTION_CLOSED_CODE)) := by
  constructor
  · exact sendRecvAttempt_true_done
  · intro cfg env msg st st1 evs1 m st2 evs2 h1 h2 hnt
    have hcl := sendRecvAttempt_of_transport h2
    rw [if_neg (by simp [hnt])] at hcl
    by_cases hcc : containsConnectionClosed m = true
    · rw [if_pos hcc, if_pos rfl] at hcl
      exact ⟨_, sendRecv_retry h1 hcl, fun _ => rfl⟩
    · rw [if_neg hcc, if_pos rfl] at hcl
      exact ⟨_, sendRecv_retry h1 hcl, fun hcc2 => absurd hcc2 hcc⟩

/-- Witness for C1: an empty first response, then a send failure with a
connection-closed marker on the retried pass. -/
theorem C1_witness :
    ∃ resp,
      sendRecv cfgPlain
          { a1 := envRecv [], a2 := envSendFail "[Errno 104] peer reset" }
          msgGet initState
        = (.ok (false, resp), { connected := true, sockOpen := true },
           [Ev.connect, Ev.sendBytes framedGet] ++ [Ev.closeSock, Ev.connect]) ∧
      (containsConnectionClosed
          (pystr "Exception Sending Data: [Errno 104] peer reset") = true →
        resp.statusCode = CONNECTION_CLOSED_CODE) :=
  C1_retry_flag_terminal.2 cfgPlain
    { a1 := envRecv [], a2 := envSendFail "[Errno 104] peer reset" }
    msgGet initState { connected := true, sockOpen := true }
    [Ev.connect, Ev.sendBytes framedGet]
    (pystr "Exception Sending Data: [Errno 104] peer reset")
    { connected := true, sockOpen := true } [Ev.closeSock, Ev.connect]
    rfl rfl rfl

/-- C2 (code bug): with a request throttle configured, `sendRecv` raises
an `AttributeError` to its caller — inside class `HttpRawSock` the
expression `HttpSock.__request_sem` name-mangles to the nonexistent
`HttpSock._HttpRawSock__request_sem` — instead of returning a pair, so the
result is not a `(success, Response)` pair even though nothing
network-related failed; with no throttle interval, successful connection
setup and decodable data, the call always returns a `(success, response)`
pair and network-layer failures never escape. -/
theorem C2_no_raise_vs_throttle_bug :
    sendRecv cfgThrottled { a1 := envRecv [], a2 := envRecv [] } msgGet initState
      = (.error (.attrError "_HttpRawSock__request_sem"),
         { connected := true, sockOpen := true }, [Ev.connect]) ∧
    (∀ (cfg : Config) (env : Env) (msg : PyStr) (st : SockState),
       cfg.throttleMs = none → cfg.useTestSocket = false →
       env.a1.connectErr = none → env.a2.connectErr = none →
       pyIn DELIM msg = true →
       decodableTrace cfg env.a1.recvs → decodableTrace cfg env.a2.recvs →
       ∃ b resp st' evs, sendRecv cfg env msg st = (.ok (b, resp), st', evs)) := by
  exact ⟨rfl, sendRecv_ok⟩

/-- Witness for C2: the no-raise half at a concrete plain-configuration
call. -/
theorem C2_witness :
    ∃ b resp st' evs,
      sendRecv cfgPlain { a1 := envRecv [], a2 := envRecv [] } msgGet initState
        = (.ok (b, resp), st', evs) :=
  C2_no_raise_vs_throttle_bug.2 cfgPlain
    { a1 := envRecv [], a2 := envRecv [] } msgGet initState
    rfl rfl rfl rfl (by decide)
    (fun e he => absurd he (List.not_mem_nil e))
    (fun e he => absurd he (List.not_mem_nil e))

def msgC3 : PyStr := pystr "POST /a HTTP/1.1\r\nHost: h\r\n\r\né"

/-- C3 (counterexample): for the one-character body `é` the framer
injects `Content-Length: 1` — the number of characters — although the
body occupies 2 bytes on the wire, so the injected value is not the
exact byte length of the body. -/
theorem C3_counterexample_charlen :
    addContentLength msgC3
      = .ok (pystr "POST /a HTTP/1.1\r\nHost: h\r\nContent-Length: 1\r\n\r\né") ∧
    pyBytesLen (pystr "é") = 2 ∧
    pyIn (pystr "Content-Length: 2")
      (pystr "POST /a HTTP/1.1\r\nHost: h\r\nContent-Length: 1\r\n\r\né") = false :=
  ⟨rfl, by decide, by decide⟩

/-- C3 (amended): when `"Content-Length: "` already occurs in the message
text — even with an incorrect value — the framer preserves the message
verbatim and injects nothing; when it occurs nowhere, the framer splices
a `Content-Length: <n>` line immediately before the first delimiter,
leaving the header text and the body unchanged, where `n` is the number
of characters of the body (the text after the delimiter) — equal to the
byte length only for one-byte-per-character bodies. -/
theorem C3_injects_charlen_before_delim :
    (∀ (msg : PyStr), pyIn (pystr "Content-Length: ") msg = true →
       addContentLength msg = .ok msg) ∧
    (∀ (msg : PyStr) (i : Nat),
       pyIn (pystr "Content-Length: ") msg = false →
       pyFind DELIM msg = some i →
       msg.take i ++ DELIM ++ msg.drop (i + DELIM.length) = msg ∧
       addContentLength msg =
         .ok (msg.take i ++ pystr "\r\n" ++
           (pystr "Content-Length: " ++
             (toString (msg.drop (i + DELIM.length)).length).toList) ++
           DELIM ++ msg.drop (i + DELIM.length))) := by
  constructor
  · intro msg hcl
    unfold addContentLength
    rw [hcl]
    simp
  · intro msg i hcl hf
    refine ⟨pyFind_decomp hf, ?_⟩
    unfold addContentLength
    rw [hcl]
    simp only [Bool.false_eq_true, if_false]
    rw [hf]
    exact appendToHeader_ok _ hf

/-- Witness for C3: a message already carrying an (incorrect)
`Content-Length: 99` is passed through verbatim, and a Content-Length-free
ASCII message gets the spliced header. -/
theorem C3_witness :
    addContentLength (pystr "POST / HTTP/1.1\r\nContent-Length: 99\r\n\r\nab")
      = .ok (pystr "POST / HTTP/1.1\r\nContent-Length: 99\r\n\r\nab") ∧
    ((pystr "GET / HTTP/1.1\r\n\r\nab").take 14 ++ DELIM ++
        (pystr "GET / HTTP/1.1\r\n\r\nab").drop (14 + DELIM.length)
      = pystr "GET / HTTP/1.1\r\n\r\nab" ∧
    addContentLength (pystr "GET / HTTP/1.1\r\n\r\nab") =
      .ok ((pystr "GET / HTTP/1.1\r\n\r\nab").take 14 ++ pystr "\r\n" ++
        (pystr "Content-Length: " ++
          (toString ((pystr "GET / HTTP/1.1\r\n\r\nab").drop (14 + DELIM.length)).length).toList) ++
        DELIM ++ (pystr "GET / HTTP/1.1\r\n\r\nab").drop (14 + DELIM.length))) :=
  ⟨C3_injects_charlen_before_delim.1
      (pystr "POST / HTTP/1.1\r\nContent-Length: 99\r\n\r\nab") (by decide),
   C3_injects_charlen_before_delim.2 (pystr "GET / HTTP/1.1\r\n\r\nab") 14
      (by decide) (by decide)⟩

/-- C4 (code bug): when a throttle interval is configured, the gate is
never acquired and no sleep happens — `HttpSock.__request_sem` inside
class `HttpRawSock` mangles to `_HttpRawSock__request_sem`, which class
`HttpSock` does not have, so `_begin_throttle_request` raises
`AttributeError` before the `try` block and the exception escapes
`sendRecv`; when no interval is configured the gate and timestamp are
never touched (both throttle hooks are no-ops). -/
theorem C4_throttle_attribute_bug :
    pyMangle "HttpRawSock" "__request_sem" = "_HttpRawSock__request_sem" ∧
    lookupHttpSockAttr "_HttpRawSock__request_sem" = none ∧
    beginThrottle cfgThrottled = .error (.attrError "_HttpRawSock__request_sem") ∧
    (∀ cfg : Config, cfg.throttleMs = none →
      beginThrottle cfg = .ok () ∧ endThrottle cfg = .ok ()) ∧
    sendRecv cfgThrottled { a1 := envRecv [], a2 := envRecv [] } msgGet initState
      = (.error (.attrError "_HttpRawSock__request_sem"),
         { connected := true, sockOpen := true }, [Ev.connect]) := by
  refine ⟨rfl, rfl, rfl, ?_, rfl⟩
  intro cfg h
  exact ⟨beginThrottle_none h, endThrottle_none h⟩

/-- Witness for C4: with no interval configured both throttle hooks are
no-ops. -/
theorem C4_witness :
    beginThrottle cfgPlain = .ok () ∧ endThrottle cfgPlain = .ok () :=
  C4_throttle_attribute_bug.2.2.2.1 cfgPlain rfl

/-- C5: a zero-length read before the delimiter has been seen makes the
assembler return all buffered text without raising, consuming nothing
past the closing read; and a first (non-retry) pass whose overall
received response is empty triggers exactly one reconnect-and-retry: the
call's result is the retried pass's result, and that pass always
finishes. -/
theorem C5_zero_read_empty_retry :
    (∀ (cfg : Config) (mn : PyStr) (pre rest : List RecvEvent) (t0 : PyStr) (ok0 : Bool),
       (∀ e ∈ pre, ∃ n t, e = RecvEvent.data n t true ∧ 0 < n) →
       pyIn DELIM (joinTexts pre) = false →
       recvResponse cfg mn (pre ++ RecvEvent.data 0 t0 ok0 :: rest)
         = (.ok (joinTexts pre), rest)) ∧
    (∀ (cfg : Config) (env : Env) (msg : PyStr) (st : SockState),
       cfg.useTestSocket = false → cfg.throttleMs = none →
       env.a1.connectErr = none → env.a1.sendErr = none →
       pyIn DELIM msg = true →
       (recvResponse cfg (getMethodFromMessage msg) env.a1.recvs).1 = .ok [] →
       ∃ st1 evs1 r st2 evs2,
         sendRecvAttempt cfg env.a1 msg false st = .retry st1 evs1 ∧
         sendRecvAttempt cfg env.a2 msg true st1 = .done r st2 evs2 ∧
         sendRecv cfg env msg st = (r, st2, evs1 ++ evs2)) := by
  constructor
  · exact recvResponse_zero_read
  · intro cfg env msg st hts hthr hconn hsend hmsg hrecv
    rcases firstAttempt_empty_retry cfg env.a1 msg st hts hthr hconn hsend hmsg hrecv
      with ⟨st1, evs1, h1⟩
    rcases sendRecvAttempt_true_done cfg env.a2 msg st1 with ⟨r, st2, evs2, h2⟩
    exact ⟨st1, evs1, r, st2, evs2, h1, h2, sendRecv_retry h1 h2⟩

/-- Witness for C5: two delimiter-free reads, then a zero-length read;
and a concrete empty first response retried once. -/
theorem C5_witness :
    recvResponse cfgPlain (pystr "GET")
        ([RecvEvent.data 2 (pystr "ab") true, RecvEvent.data 1 (pystr "c") true] ++
          RecvEvent.data 0 [] true :: [])
      = (.ok (joinTexts
          [RecvEvent.data 2 (pystr "ab") true, RecvEvent.data 1 (pystr "c") true]), []) ∧
    ∃ st1 evs1 r st2 evs2,
      sendRecvAttempt cfgPlain (envRecv []) msgGet false initState = .retry st1 evs1 ∧
      sendRecvAttempt cfgPlain (envRecv []) msgGet true st1 = .done r st2 evs2 ∧
      sendRecv cfgPlain { a1 := envRecv [], a2 := envRecv [] } msgGet initState
        = (r, st2, evs1 ++ evs2) :=
  ⟨C5_zero_read_empty_retry.1 cfgPlain (pystr "GET")
      [RecvEvent.data 2 (pystr "ab") true, RecvEvent.data 1 (pystr "c") true] [] [] true
      (by intro e he; fin_cases he
          · exact ⟨2, pystr "ab", rfl, by omega⟩
          · exact ⟨1, pystr "c", rfl, by omega⟩)
      (by decide),
   C5_zero_read_empty_retry.2 cfgPlain { a1 := envRecv [], a2 := envRecv [] }
      msgGet initState rfl rfl rfl rfl (by decide) (by rfl)⟩

/-- The claim's reading of the chunked test: a case-insensitive match of
the chunked transfer-encoding header. -/
def specChunkedDeclared (data : PyStr) : Bool :=
  pyIn (pystr "transfer-encoding: chunked\r\n") (pyLower data)

def dataC6 : PyStr := pystr "HTTP/1.1 200 OK\r\nTransfer-encoding: chunked\r\n\r\n"

/-- C6 (counterexample): a buffer declaring chunked transfer-encoding in
the spelling `Transfer-encoding: chunked` — a case-insensitive match —
that already ends with the delimiter is not returned immediately: the
source's test recognises only two exact spellings, treats this response
as non-chunked and performs a further read (the trailing event is
consumed instead of left over). -/
theorem C6_counterexample_casing :
    specChunkedDeclared dataC6 = true ∧
    pyEndsWith DELIM dataC6 = true ∧
    chunkedDeclared dataC6 = false ∧
    recvResponse cfgPlain (pystr "GET")
        [RecvEvent.data 48 dataC6 true, RecvEvent.data 0 [] true]
      = (.ok dataC6, []) ∧
    ([] : List RecvEvent) ≠ [RecvEvent.data 0 [] true] :=
  ⟨by decide, by decide, by decide, rfl, by decide⟩

/-- C6 (amended): the chunked test matches only the two exact spellings
`Transfer-Encoding: chunked\r\n` and `transfer-encoding: chunked\r\n`;
when it matches and the buffer already ends with the delimiter, the
assembler returns at once consuming no further event; when it matches
and the buffer does not end with the delimiter, the chunk loop runs,
and it returns successfully exactly on a buffer ending with the
delimiter, an exhausted trace, or a zero-length read. -/
theorem C6_chunked_exact_casing :
    (∀ (data : PyStr), chunkedDeclared data =
      (pyIn (pystr "Transfer-Encoding: chunked\r\n") data ||
       pyIn (pystr "transfer-encoding: chunked\r\n") data)) ∧
    (∀ (cfg : Config) (mn : PyStr) (tr rest : List RecvEvent) (d : PyStr) (b : Nat),
       readUntilDelim cfg [] 0 tr = (.headerDone d b, rest) →
       chunkedDeclared d = true →
       (pyEndsWith DELIM d = true → recvResponse cfg mn tr = (.ok d, rest)) ∧
       (pyEndsWith DELIM d = false → recvResponse cfg mn tr = readChunked cfg d rest)) ∧
    (∀ (cfg : Config) (tr : List RecvEvent) (d d' : PyStr) (rest' : List RecvEvent),
       readChunked cfg d tr = (.ok d', rest') →
       pyEndsWith DELIM d' = true ∨ rest' = [] ∨
         ∃ pre t ok, tr = pre ++ RecvEvent.data 0 t ok :: rest') := by
  refine ⟨fun data => rfl, ?_, ?_⟩
  · intro cfg mn tr rest d b h hchunk
    constructor
    · intro hend
      unfold recvResponse
      rw [h]
      simp [hchunk, hend]
    · intro hend
      unfold recvResponse
      rw [h]
      simp [hchunk, hend]
  · intro cfg tr d d' rest' h
    exact readChunked_ok_stop cfg tr d d' rest' h

def dataC6W : PyStr := pystr "HTTP/1.1 200 OK\r\nTransfer-Encoding: chunked\r\n\r\n"

/-- Witness for C6: the exact spelling with the buffer already ending in
the delimiter returns immediately; the stop property at a concrete
chunked read. -/
theorem C6_witness :
    recvResponse cfgPlain (pystr "GET")
        [RecvEvent.data 48 dataC6W true, RecvEvent.data 0 [] true]
      = (.ok dataC6W, [RecvEvent.data 0 [] true]) ∧
    (pyEndsWith DELIM (pystr "x\r\n\r\n") = true ∨
      ([] : List RecvEvent) = [] ∨
      ∃ pre t ok, [RecvEvent.data 5 (pystr "\r\n\r\n") true]
        = pre ++ RecvEvent.data 0 t ok :: ([] : List RecvEvent)) :=
  ⟨((C6_chunked_exact_casing.2.1 cfgPlain (pystr "GET")
      [RecvEvent.data 48 dataC6W true, RecvEvent.data 0 [] true]
      [RecvEvent.data 0 [] true] dataC6W 48 (by rfl) (by decide)).1 (by decide)),
   C6_chunked_exact_casing.2.2 cfgPlain [RecvEvent.data 5 (pystr "\r\n\r\n") true]
      (pystr "x") (pystr "x\r\n\r\n") [] (by rfl)⟩

/-- The claim's reading of the Content-Length parse: applied to the
buffered HEADER section only (the text up to and including the first
delimiter), not to the whole buffered data. -/
def specContentLenFromHeader (data methodName : PyStr) : Int :=
  contentLenOf (data.take ((pyFind DELIM data).getD 0 + DELIM.length)) methodName

def dataC7 : PyStr := pystr "HTTP/1.1 200 OK\r\n\r\ncontent-length: 7\r\nxx"

def extraC7 : RecvEvent := RecvEvent.data 3 (pystr "yyy") true

/-- C7 (counterexample): a response whose header has no Content-Length
field but whose buffered body contains `content-length: 7` — the source
parses the value 7 out of the body instead of falling back to the 1 MiB
budget computed from the header alone, and accordingly stops reading at
once (the trailing event stays unconsumed) where the claimed fallback
would keep reading. -/
theorem C7_counterexample_body_scan :
    contentLenOf dataC7 (pystr "GET") = 7 ∧
    specContentLenFromHeader dataC7 (pystr "GET") = 2 ^ 20 ∧
    (7 : Int) ≠ 2 ^ 20 ∧
    recvResponse cfgPlain (pystr "GET") [RecvEvent.data 40 dataC7 true, extraC7]
      = (.ok dataC7, [extraC7]) :=
  ⟨by decide, by decide, by decide, rfl⟩

/-- C7 (amended): the expected body length is zero for the exact prefixes
`HTTP/1.1 204` / `HTTP/1.1 304` or a HEAD request regardless of any
Content-Length; otherwise it is parsed from the first occurrence of
`content-length: ` in the lowercased whole buffer (header or body), with
a fall-back of `2^20` when the pattern is absent or when `int` fails on
the extracted segment; the non-chunked path then runs the
remaining-bytes loop starting from content length minus bytes received
plus header length, which performs no read once the budget is
non-positive and returns partial data without error on a zero-length
read. -/
theorem C7_expected_length_and_reads :
    (∀ (data mn : PyStr),
       (data.take 12 = pystr "HTTP/1.1 204" ∨ data.take 12 = pystr "HTTP/1.1 304" ∨
         pyUpper mn = pystr "HEAD") →
       contentLenOf data mn = 0) ∧
    (∀ (data mn : PyStr),
       ¬(data.take 12 = pystr "HTTP/1.1 204" ∨ data.take 12 = pystr "HTTP/1.1 304") →
       pyUpper mn ≠ pystr "HEAD" →
       pyIn (pystr "content-length: ") (pyLower data) = false →
       contentLenOf data mn = 2 ^ 20) ∧
    (∀ (data mn : PyStr) (i : Nat),
       ¬(data.take 12 = pystr "HTTP/1.1 204" ∨ data.take 12 = pystr "HTTP/1.1 304") →
       pyUpper mn ≠ pystr "HEAD" →
       pyFind (pystr "content-length: ") (pyLower data) = some i →
       parsePyInt (takeUntil (pystr "\r\n")
         (takeUntil (pystr "content-length: ")
           ((pyLower data).drop (i + (pystr "content-length: ").length)))) = none →
       contentLenOf data mn = 2 ^ 20) ∧
    (∀ (cfg : Config) (d : PyStr) (r : Int) (tr : List RecvEvent),
       r ≤ 0 → readRemaining cfg d r tr = (.ok d, tr)) ∧
    (∀ (cfg : Config) (d : PyStr) (r : Int) (t : PyStr) (ok : Bool) (tr : List RecvEvent),
       0 < r → readRemaining cfg d r (RecvEvent.data 0 t ok :: tr) = (.ok d, tr)) ∧
    (∀ (cfg : Config) (mn : PyStr) (tr rest : List RecvEvent) (d : PyStr) (b : Nat),
       readUntilDelim cfg [] 0 tr = (.headerDone d b, rest) →
       chunkedDeclared d = false →
       recvResponse cfg mn tr =
         readRemaining cfg d
           (contentLenOf d mn - (b : Int) +
             (((pyFind DELIM d).getD 0 + DELIM.length : Nat) : Int)) rest) := by
  refine ⟨?_, ?_, ?_, readRemaining_nonpos, readRemaining_zero_read, ?_⟩
  · intro data mn h
    unfold contentLenOf
    by_cases h12 : (data.take 12 = pystr "HTTP/1.1 204" ∨ data.take 12 = pystr "HTTP/1.1 304")
    · rw [if_pos h12]
    · rw [if_neg h12]
      have hh : pyUpper mn = pystr "HEAD" := by tauto
      rw [if_pos hh]
  · intro data mn h12 hmn hcl
    unfold contentLenOf
    rw [if_neg h12, if_neg hmn]
    simp only [pyFind_none_of_not_pyIn hcl]
  · intro data mn i h12 hmn hfind hparse
    unfold contentLenOf
    rw [if_neg h12, if_neg hmn]
    simp only [hfind, hparse]
  · intro cfg mn tr rest d b h hchunk
    unfold recvResponse
    rw [h]
    simp [hchunk]

def dataC7W : PyStr := pystr "HTTP/1.1 204 No Content\r\nContent-Length: 5\r\n\r\n"

/-- Witness for C7: a 204 response with a Content-Length field still has
expected length zero; a header without the pattern falls back to the
1 MiB budget; so does a present but unparsable `Content-Length: abc`;
the loop behaviors at concrete inputs; and the wiring at a concrete
non-chunked response. -/
theorem C7_witness :
    contentLenOf dataC7W (pystr "GET") = 0 ∧
    contentLenOf (pystr "HTTP/1.1 200 OK\r\n\r\n") (pystr "GET") = 2 ^ 20 ∧
    contentLenOf (pystr "HTTP/1.1 200 OK\r\nContent-Length: abc\r\n\r\n") (pystr "GET")
      = 2 ^ 20 ∧
    readRemaining cfgPlain (pystr "x") (-1) [extraC7] = (.ok (pystr "x"), [extraC7]) ∧
    readRemaining cfgPlain (pystr "x") 5 (RecvEvent.data 0 [] true :: [extraC7])
      = (.ok (pystr "x"), [extraC7]) ∧
    recvResponse cfgPlain (pystr "GET") [RecvEvent.data 19 (pystr "HTTP/1.1 200 OK\r\n\r\n") true]
      = readRemaining cfgPlain (pystr "HTTP/1.1 200 OK\r\n\r\n")
          (contentLenOf (pystr "HTTP/1.1 200 OK\r\n\r\n") (pystr "GET") - (19 : Int) +
            (((pyFind DELIM (pystr "HTTP/1.1 200 OK\r\n\r\n")).getD 0 + DELIM.length : Nat) : Int))
          [] :=
  ⟨C7_expected_length_and_reads.1 dataC7W (pystr "GET") (by left; decide),
   C7_expected_length_and_reads.2.1 (pystr "HTTP/1.1 200 OK\r\n\r\n") (pystr "GET")
     (by decide) (by decide) (by decide),
   C7_expected_length_and_reads.2.2.1 (pystr "HTTP/1.1 200 OK\r\nContent-Length: abc\r\n\r\n")
     (pystr "GET") 17 (by decide) (by decide) (by decide) (by decide),
   C7_expected_length_and_reads.2.2.2.1 cfgPlain (pystr "x") (-1) [extraC7] (by decide),
   C7_expected_length_and_reads.2.2.2.2.1 cfgPlain (pystr "x") 5 [] true [extraC7] (by decide),
   C7_expected_length_and_reads.2.2.2.2.2 cfgPlain (pystr "GET")
     [RecvEvent.data 19 (pystr "HTTP/1.1 200 OK\r\n\r\n") true] [] (pystr "HTTP/1.1 200 OK\r\n\r\n")
     19 (by rfl) (by decide)⟩

/-- C8: whenever a pass fails with a transport error whose text contains
`timed out`, the classifier returns failure with the synthetic TIMEOUT
status immediately — on the first pass (retry flag unset) as well as on
a retried pass — and a first-pass terminal result is returned by
`sendRecv` unchanged, so no reconnect and no retry happens. -/
theorem C8_timeout_terminal :
    (∀ (cfg : Config) (env : AttemptEnv) (msg : PyStr) (rc : Bool) (st : SockState)
       (m : PyStr) (st1 : SockState) (evs : List Ev),
       attemptBody cfg env msg rc st = (.raised (.transport m), st1, evs) →
       pyIn (pystr "timed out") m = true →
       sendRecvAttempt cfg env msg rc st =
         .done (.ok (false,
           { mkHttpResponse (stripQuotes m) with statusCode := TIMEOUT_CODE })) st1 evs) ∧
    (∀ (cfg : Config) (env : Env) (msg : PyStr) (st : SockState)
       (r : Except Exn (Bool × HttpResponse)) (st1 : SockState) (evs : List Ev),
       sendRecvAttempt cfg env.a1 msg false st = .done r st1 evs →
       sendRecv cfg env msg st = (r, st1, evs)) := by
  constructor
  · intro cfg env msg rc st m st1 evs h ht
    rw [sendRecvAttempt_of_transport h, if_pos ht]
  · intro cfg env msg st r st1 evs h
    exact sendRecv_done h

/-- Witness for C8: a first read raising `timed out` yields the TIMEOUT
terminal result with no retry, already on the first pass. -/
theorem C8_witness :
    sendRecv cfgPlain
        { a1 := envRecv [RecvEvent.fail (pystr "timed out")], a2 := envRecv [] }
        msgGet initState
      = (.ok (false,
          { mkHttpResponse (stripQuotes (pystr "Exception: timed out")) with
              statusCode := TIMEOUT_CODE }),
         { connected := true, sockOpen := true },
         [Ev.connect, Ev.sendBytes framedGet]) := by
  have h1 := C8_timeout_terminal.1 cfgPlain (envRecv [RecvEvent.fail (pystr "timed out")])
    msgGet false initState (pystr "Exception: timed out")
    { connected := true, sockOpen := true } [Ev.connect, Ev.sendBytes framedGet]
    (by rfl) (by decide)
  exact C8_timeout_terminal.2 cfgPlain
    { a1 := envRecv [RecvEvent.fail (pystr "timed out")], a2 := envRecv [] }
    msgGet initState _ _ _ h1

/-- C9: a raw-socket session is constructed without opening a connection
(`__init__` leaves it disconnected with no socket); a pass on a
not-yet-connected session emits the connection setup as its first event,
before any bytes are sent; a reconnect pass on a session holding a socket
first closes it and then re-runs connection setup; and a pass on an
already-connected session (retry flag unset) never connects. -/
theorem C9_lazy_connection :
    (initState.connected = false ∧ initState.sockOpen = false) ∧
    (∀ (cfg : Config) (env : AttemptEnv) (msg : PyStr) (st : SockState),
       st.connected = false →
       ∃ tail, (attemptBody cfg env msg false st).2.2 = Ev.connect :: tail) ∧
    (∀ (cfg : Config) (env : AttemptEnv) (msg : PyStr) (st : SockState),
       st.sockOpen = true →
       ∃ tail, (attemptBody cfg env msg true st).2.2
         = Ev.closeSock :: Ev.connect :: tail) ∧
    (∀ (cfg : Config) (env : AttemptEnv) (msg : PyStr) (st : SockState),
       st.connected = true →
       Ev.connect ∉ (attemptBody cfg env msg false st).2.2) := by
  refine ⟨⟨rfl, rfl⟩, ?_, ?_, ?_⟩
  · intro cfg env msg st hc
    have hneed : ((false : Bool) || !st.connected) = true := by rw [hc]; rfl
    cases hconn : env.connectErr with
    | some m =>
      unfold attemptBody
      simp only [hneed, if_true, hconn]
      have hso : (false && st.sockOpen) = false := by simp
      simp [hso]
    | none =>
      rw [attemptBody_connect_ok cfg env msg false st hneed hconn]
      rcases afterConnect_evs cfg env msg false
        { connected := true, sockOpen := true }
        ((if false && st.sockOpen then [Ev.closeSock] else []) ++ [Ev.connect])
        with ⟨evs', hevs, _⟩
      refine ⟨evs', ?_⟩
      rw [hevs]
      simp
  · intro cfg env msg st hs
    have hneed : ((true : Bool) || !st.connected) = true := by simp
    cases hconn : env.connectErr with
    | some m =>
      unfold attemptBody
      simp only [hneed, if_true, hconn]
      have hso : (true && st.sockOpen) = true := by simp [hs]
      simp [hso]
    | none =>
      rw [attemptBody_connect_ok cfg env msg true st hneed hconn]
      rcases afterConnect_evs cfg env msg true
        { connected := true, sockOpen := true }
        ((if true && st.sockOpen then [Ev.closeSock] else []) ++ [Ev.connect])
        with ⟨evs', hevs, _⟩
      refine ⟨evs', ?_⟩
      rw [hevs]
      simp [hs]
  · intro cfg env msg st hc
    rw [attemptBody_no_connect cfg env msg st hc]
    rcases afterConnect_evs cfg env msg false st [] with ⟨evs', hevs, hall⟩
    rw [hevs]
    intro hmem
    simp only [List.nil_append] at hmem
    rcases hall _ hmem with ⟨fr, hfr⟩
    cases hfr

/-- Witness for C9: the freshly constructed session connects first on its
first pass; an open session closes then reconnects on a retry pass; a
connected session does not reconnect. -/
theorem C9_witness :
    (∃ tail, (attemptBody cfgPlain (envRecv []) msgGet false initState).2.2
      = Ev.connect :: tail) ∧
    (∃ tail, (attemptBody cfgPlain (envRecv []) msgGet true
        { connected := true, sockOpen := true }).2.2
      = Ev.closeSock :: Ev.connect :: tail) ∧
    Ev.connect ∉ (attemptBody cfgPlain (envRecv []) msgGet false
        { connected := true, sockOpen := true }).2.2 :=
  ⟨C9_lazy_connection.2.1 cfgPlain (envRecv []) msgGet initState rfl,
   C9_lazy_connection.2.2.1 cfgPlain (envRecv []) msgGet
     { connected := true, sockOpen := true } rfl,
   C9_lazy_connection.2.2.2 cfgPlain (envRecv []) msgGet
     { connected := true, sockOpen := true } rfl⟩

/-- C10: when the reconnect-and-retry triggered by an empty first
response again receives an empty response, `sendRecv` returns success —
`(True, HttpResponse(""))` — rather than a failure result. -/
theorem C10_persistent_empty_success (cfg : Config) (env : Env) (msg : PyStr)
    (st : SockState)
    (hts : cfg.useTestSocket = false) (hthr : cfg.throttleMs = none)
    (hc1 : env.a1.connectErr = none) (hs1 : env.a1.sendErr = none)
    (hc2 : env.a2.connectErr = none) (hs2 : env.a2.sendErr = none)
    (hmsg : pyIn DELIM msg = true)
    (hr1 : (recvResponse cfg (getMethodFromMessage msg) env.a1.recvs).1 = .ok [])
    (hr2 : (recvResponse cfg (getMethodFromMessage msg) env.a2.recvs).1 = .ok []) :
    ∃ st' evs, sendRecv cfg env msg st = (.ok (true, mkHttpResponse []), st', evs) := by
  rcases firstAttempt_empty_retry cfg env.a1 msg st hts hthr hc1 hs1 hmsg hr1
    with ⟨st1, evs1, h1⟩
  rcases frameMessage_ok cfg hmsg with ⟨fm, hfm⟩
  have hsr := sendRequest_ok cfg env.a2 hthr hs2 hfm
  rcases hrr : recvResponse cfg (getMethodFromMessage msg) env.a2.recvs with ⟨res, rest⟩
  rw [hrr] at hr2
  have hres : res = .ok [] := hr2
  subst hres
  have hab := attemptBody_connect_ok cfg env.a2 msg true st1 (by simp) hc2
  rw [afterConnect_eq _ _ _ _ _ _ hsr hts hrr] at hab
  simp only [List.isEmpty_nil, Bool.not_true, Bool.and_false, Bool.false_eq_true, if_false]
    at hab
  have h2 := sendRecvAttempt_of_ret hab
  exact ⟨_, _, sendRecv_retry h1 h2⟩

/-- Witness for C10: both attempts receive nothing at all. -/
theorem C10_witness :
    ∃ st' evs,
      sendRecv cfgPlain { a1 := envRecv [], a2 := envRecv [] } msgGet initState
        = (.ok (true, mkHttpResponse []), st', evs) :=
  C10_persistent_empty_success cfgPlain { a1 := envRecv [], a2 := envRecv [] }
    msgGet initState rfl rfl rfl rfl rfl rfl (by decide) (by rfl) (by rfl)
